import Mathlib

/-!
Verification of the background-maker rendering engine.

This file gives a shallow embedding of the deterministic frame renderer
(`src/aurora.js`) and of the export pipeline (`src/exporter.js`), and settles
the specified properties against it.

Conventions of the embedding:
* Canvas 2D calls are recorded as a list of `CanvasOp` values; two frames are
  pixel-identical exactly when their operation lists (with all numeric
  arguments) coincide.
* JavaScript numbers are modelled as real numbers, except in the seeded blob
  generator and the export timeline where every value is rational and the
  model stays executable.
* The JavaScript `%` operator is a truncating remainder (it keeps the sign of
  the dividend); `jsMod1` models `x % 1`.
* `a || b` on strings substitutes `b` for `undefined` and for the empty
  string; `a ?? b` substitutes only for `undefined` (`Option.getD`).
-/

open Classical in
/-- JavaScript `x % 1`: truncating remainder, result has the sign of `x`. -/
noncomputable def jsMod1 (x : ℝ) : ℝ :=
  if 0 ≤ x then Int.fract x else -Int.fract (-x)

open Classical in
/-- JavaScript `x || d` for numbers: `d` exactly when `x` is falsy (zero). -/
noncomputable def jsOrNum (x d : ℝ) : ℝ :=
  if x = 0 then d else x

/-- JavaScript `v || d` for an optional string: `d` when the entry is missing
(`undefined`) or is the empty string (both are falsy). -/
def jsOrStr (v : Option String) (d : String) : String :=
  match v with
  | some s => if s = "" then d else s
  | none => d

/-- Per-layer orbit constants (`LAYER_ORBITS` in aurora.js). -/
structure Orbit where
  phaseX : ℝ
  phaseY : ℝ
  dirX : ℝ
  dirY : ℝ

noncomputable def LAYER_ORBITS : List Orbit :=
  [⟨0.0, 0.3, 1, 1⟩,
   ⟨0.5, 0.8, -1, 1⟩,
   ⟨0.2, 0.6, 1, -1⟩,
   ⟨0.7, 0.1, -1, -1⟩,
   ⟨0.4, 0.9, 1, -1⟩,
   ⟨0.9, 0.4, -1, 1⟩]

def DEFAULT_LAYER_COLORS : List String :=
  ["#7c7cff", "#3b82f6", "#a855f7", "#22d3ee", "#f472b6", "#34d399"]

/-- Rounding of a natural number to a multiple of `2 ^ g`, to nearest, ties
to even: the IEEE-754 rounding applied to an integer whose binary size
exceeds the 53-bit double-precision significand by `g` bits. -/
def roundPrec (g x : ℕ) : ℕ :=
  let q := x / 2 ^ g
  let r := x % 2 ^ g
  if r < 2 ^ (g - 1) then q * 2 ^ g
  else if 2 ^ (g - 1) < r then (q + 1) * 2 ^ g
  else if q % 2 = 0 then q * 2 ^ g else (q + 1) * 2 ^ g

/-- The value a natural number takes when stored in an IEEE-754 double
(faithful for `x < 2 ^ 64`, far beyond every product formed here): exact
below `2 ^ 53`, otherwise rounded to the double's granularity, to nearest,
ties to even. -/
def floatRound (x : ℕ) : ℕ :=
  if x < 2 ^ 53 then x
  else if x < 2 ^ 54 then roundPrec 1 x
  else if x < 2 ^ 55 then roundPrec 2 x
  else if x < 2 ^ 56 then roundPrec 3 x
  else if x < 2 ^ 57 then roundPrec 4 x
  else if x < 2 ^ 58 then roundPrec 5 x
  else if x < 2 ^ 59 then roundPrec 6 x
  else if x < 2 ^ 60 then roundPrec 7 x
  else if x < 2 ^ 61 then roundPrec 8 x
  else if x < 2 ^ 62 then roundPrec 9 x
  else if x < 2 ^ 63 then roundPrec 10 x
  else if x < 2 ^ 64 then roundPrec 11 x
  else x

/-- One step of the seeded linear congruential generator (`seededRandom`):
`s ← (s * 16807 + 0) % 2147483647`, where the product `s * 16807` is an IEEE
double and therefore rounds once it exceeds `2 ^ 53` (the remainder of the
two integer-valued doubles is then exact, and lies below `2 ^ 31`). Every
state after the first step is below `2147483647`, so only the very first
multiplication of a large seed can round. -/
def rngStep (s : ℕ) : ℕ := floatRound (s * 16807) % 2147483647

/-- The value returned by a `seededRandom` call with post-step state `s`:
`(s - 1) / 2147483646`. -/
def rngVal (s : ℕ) : ℚ := ((s : ℚ) - 1) / 2147483646

/-- Seed used by `buildRandomBlobPoints`: `layerIndex * 7919 + 1301`. -/
def blobSeed (layerIndex : ℕ) : ℕ := layerIndex * 7919 + 1301

/-- Point count chosen by the first RNG draw: `5 + Math.floor(rng() * 4)`. -/
def blobPointCount (layerIndex : ℕ) : ℕ :=
  (5 + ⌊rngVal (rngStep (blobSeed layerIndex)) * 4⌋).toNat

/-- A blob outline control point `{ angle, radius }`. -/
structure BlobPoint where
  angle : ℝ
  radius : ℚ

/-- Model of `buildRandomBlobPoints(layerIndex)`: the first RNG draw picks the point
count, then draw `j + 2` (1-based) supplies the radius of point `j`. -/
noncomputable def buildRandomBlobPoints (layerIndex : ℕ) : List BlobPoint :=
  let n := blobPointCount layerIndex
  (List.range n).map fun (j : ℕ) =>
    { angle := ((j : ℝ) / (n : ℝ)) * Real.pi * 2
      radius := 0.6 + rngVal (rngStep^[j + 2] (blobSeed layerIndex)) * 0.4 }

/-- Model of `BLOB_POINTS`: outlines pre-generated for layer indices `0..5`. -/
noncomputable def BLOB_POINTS : List (List BlobPoint) :=
  (List.range 6).map buildRandomBlobPoints

-- ── Motion functions ──

noncomputable def motionLissajous (t : ℝ) (orbit : Orbit) (range : ℝ) : ℝ × ℝ :=
  (Real.sin ((t + orbit.phaseX) * Real.pi * 2) * orbit.dirX * range,
   Real.sin ((t + orbit.phaseY) * Real.pi * 2) * orbit.dirY * range)

noncomputable def motionOrbit (t : ℝ) (orbit : Orbit) (range : ℝ) : ℝ × ℝ :=
  let angle := (t + orbit.phaseX) * Real.pi * 2
  (Real.cos angle * range * orbit.dirX,
   Real.sin angle * range * orbit.dirY)

noncomputable def motionDrift (t : ℝ) (orbit : Orbit) (range : ℝ) : ℝ × ℝ :=
  let drift := jsMod1 (t * orbit.dirX + orbit.phaseX) * range * 2 - range
  let sway := Real.sin ((t + orbit.phaseY) * Real.pi * 2) * range * 0.2
  (drift, sway)

noncomputable def motionBreathe (_t : ℝ) (_orbit : Orbit) (_range : ℝ) : ℝ × ℝ :=
  (0, 0)

noncomputable def motionWave (t : ℝ) (orbit : Orbit) (range : ℝ) : ℝ × ℝ :=
  let waveX := Real.sin ((t + orbit.phaseX) * Real.pi * 2) * range
  let waveY := Real.sin ((t * 2 + orbit.phaseY) * Real.pi * 2) * range * 0.25
  (waveX * orbit.dirX, waveY)

/-- Model of `getMotionOffset`: dispatch on the motion kind string; every unmatched
kind (including `"lissajous"` itself) takes the `default` branch. -/
noncomputable def getMotionOffset (type : String) (t : ℝ) (orbit : Orbit) (range : ℝ) : ℝ × ℝ :=
  if type = "orbit" then motionOrbit t orbit range
  else if type = "drift" then motionDrift t orbit range
  else if type = "breathe" then motionBreathe t orbit range
  else if type = "wave" then motionWave t orbit range
  else motionLissajous t orbit range

-- ── Canvas operations ──

/-- A radial gradient: inner circle `(x0, y0, r0)`, outer `(x1, y1, r1)` and
its color stops in insertion order. -/
structure Gradient where
  x0 : ℝ
  y0 : ℝ
  r0 : ℝ
  x1 : ℝ
  y1 : ℝ
  r1 : ℝ
  stops : List (ℝ × String)

/-- One recorded Canvas 2D drawing call. -/
inductive CanvasOp where
  | setCompositeOp (mode : String)
  | setFillColor (color : String)
  | setFillGradient (g : Gradient)
  | fillRect (x y w h : ℝ)
  | save
  | restore
  | setAlpha (a : ℝ)
  | translate (x y : ℝ)
  | scaleBy (sx sy : ℝ)
  | beginPath
  | moveTo (x y : ℝ)
  | quadraticCurveTo (cpx cpy x y : ℝ)
  | closePath
  | fillPath

-- ── Shape drawing ──

noncomputable def drawCircle (cx cy blobRadius : ℝ) (color : String) (opacity : ℝ) :
    List CanvasOp :=
  [.save, .setAlpha opacity,
   .setFillGradient ⟨cx, cy, 0, cx, cy, blobRadius,
     [(0, color), (0.55, color ++ "40"), (1, "transparent")]⟩,
   .fillRect (cx - blobRadius) (cy - blobRadius) (blobRadius * 2) (blobRadius * 2),
   .restore]

noncomputable def drawEllipse (cx cy blobRadius : ℝ) (color : String) (opacity : ℝ)
    (layerIndex : ℕ) : List CanvasOp :=
  let aspect : ℝ := 0.5 + ((layerIndex % 3 : ℕ) : ℝ) * 0.25
  [.save, .setAlpha opacity, .translate cx cy, .scaleBy 1 aspect,
   .setFillGradient ⟨0, 0, 0, 0, 0, blobRadius,
     [(0, color), (0.55, color ++ "40"), (1, "transparent")]⟩,
   .fillRect (-blobRadius) (-blobRadius) (blobRadius * 2) (blobRadius * 2),
   .restore]

noncomputable def drawRing (cx cy blobRadius : ℝ) (color : String) (opacity : ℝ) :
    List CanvasOp :=
  let innerR := blobRadius * 0.35
  [.save, .setAlpha opacity,
   .setFillGradient ⟨cx, cy, innerR, cx, cy, blobRadius,
     [(0, "transparent"), (0.2, color ++ "60"), (0.5, color),
      (0.75, color ++ "40"), (1, "transparent")]⟩,
   .fillRect (cx - blobRadius) (cy - blobRadius) (blobRadius * 2) (blobRadius * 2),
   .restore]

noncomputable def drawBlob (cx cy blobRadius : ℝ) (color : String) (opacity : ℝ)
    (layerIndex : ℕ) : List CanvasOp :=
  let points := BLOB_POINTS.getD (layerIndex % BLOB_POINTS.length) []
  let len := points.length
  let pathOps := (List.range len).flatMap fun j =>
    let curr := points.getD j ⟨0, 0⟩
    let next := points.getD ((j + 1) % len) ⟨0, 0⟩
    let r1 := (curr.radius : ℝ) * blobRadius
    let r2 := (next.radius : ℝ) * blobRadius
    let x1 := cx + Real.cos curr.angle * r1
    let y1 := cy + Real.sin curr.angle * r1
    let x2 := cx + Real.cos next.angle * r2
    let y2 := cy + Real.sin next.angle * r2
    let mx := (x1 + x2) / 2
    let my := (y1 + y2) / 2
    (if j = 0 then
      let prev := points.getD (len - 1) ⟨0, 0⟩
      let rp := (prev.radius : ℝ) * blobRadius
      let xp := cx + Real.cos prev.angle * rp
      let yp := cy + Real.sin prev.angle * rp
      [CanvasOp.moveTo ((xp + x1) / 2) ((yp + y1) / 2)]
    else []) ++ [CanvasOp.quadraticCurveTo x1 y1 mx my]
  [.save, .setAlpha opacity, .beginPath] ++ pathOps ++
  [.closePath,
   .setFillGradient ⟨cx, cy, 0, cx, cy, blobRadius,
     [(0, color), (0.6, color ++ "50"), (1, "transparent")]⟩,
   .fillPath, .restore]

/-- Model of `drawShape`: dispatch on the shape kind string; every unmatched kind
(including `"circle"` itself) takes the `default` branch, i.e. `drawCircle`. -/
noncomputable def drawShape (type : String) (cx cy blobRadius : ℝ) (color : String)
    (opacity : ℝ) (layerIndex : ℕ) : List CanvasOp :=
  if type = "ellipse" then drawEllipse cx cy blobRadius color opacity layerIndex
  else if type = "ring" then drawRing cx cy blobRadius color opacity
  else if type = "blob" then drawBlob cx cy blobRadius color opacity layerIndex
  else drawCircle cx cy blobRadius color opacity

-- ── Renderer ──

/-- The mutable settings object of `BackgroundRenderer`. Per-layer arrays are
modelled as partial maps so a missing entry (`undefined`) is `none`. -/
structure Settings where
  bgColor : String
  layerCount : ℕ
  layerColors : ℕ → Option String
  layerShapes : ℕ → Option String
  layerMotions : ℕ → Option String
  layerCycles : ℕ → Option ℝ
  layerMotionRanges : ℕ → Option ℝ
  layerOpacities : ℕ → Option ℝ
  layerScaleRanges : ℕ → Option ℝ
  blur : ℝ
  blendMode : String
  loopDuration : ℝ

/-- The drawing operations emitted for layer `i` inside `renderFrame`'s loop. -/
noncomputable def layerOps (time : ℝ) (s : Settings) (w h : ℝ) (i : ℕ) : List CanvasOp :=
  let orbit := LAYER_ORBITS.getD (i % LAYER_ORBITS.length) ⟨0, 0, 0, 0⟩
  let color := jsOrStr (s.layerColors i)
    (DEFAULT_LAYER_COLORS.getD (i % DEFAULT_LAYER_COLORS.length) "")
  let layerShape := jsOrStr (s.layerShapes i) "circle"
  let layerMotion := jsOrStr (s.layerMotions i) "lissajous"
  let layerCycles := (s.layerCycles i).getD 1
  let layerRange := (s.layerMotionRanges i).getD 250
  let layerOpacity := (s.layerOpacities i).getD 0.75
  let layerScale := (s.layerScaleRanges i).getD 1.4
  let loopMs := jsOrNum s.loopDuration 10000
  let t := (time / loopMs) * layerCycles
  let off := getMotionOffset layerMotion t orbit layerRange
  let breatheExtra : ℝ := if layerMotion = "breathe" then 0.3 else 0
  let scale := 1.0 + (layerScale - 1.0 + breatheExtra) *
    (0.5 + 0.5 * Real.sin ((t + orbit.phaseX * 2) * Real.pi * 2))
  let baseCx := w * (0.2 + 0.6 * jsMod1 ((i : ℝ) * 0.618))
  let baseCy := h * (0.2 + 0.6 * jsMod1 ((i : ℝ) * 0.618 + 0.5))
  let cx := baseCx + off.1
  let cy := baseCy + off.2
  let blobRadius := max w h * 0.5 * scale
  drawShape layerShape cx cy blobRadius color layerOpacity i

/-- Model of `BackgroundRenderer.renderFrame(time, ctx, width, height)`: the list of
drawing operations it performs. -/
noncomputable def renderFrame (time : ℝ) (s : Settings) (w h : ℝ) : List CanvasOp :=
  [.setCompositeOp "source-over", .setFillColor s.bgColor, .fillRect 0 0 w h,
   .setCompositeOp s.blendMode]
  ++ (List.range s.layerCount).flatMap (layerOps time s w h)
  ++ [.setCompositeOp "source-over"]

/-- Variant of `renderFrame` with the renderer's mutable state threaded explicitly: the
method reads `this.settings` and returns, leaving the state untouched. -/
noncomputable def renderFrameRun (st : Settings) (time w h : ℝ) :
    List CanvasOp × Settings :=
  (renderFrame time st w h, st)

-- ── Export pipeline (src/exporter.js) ──

/-- The external encoding collaborator's observable behavior: whether the
wasm core loads, whether each frame write is acknowledged, the rejection
message carried by a failed write, the rejection message of a failed load,
and the exit code reported by `exec`. -/
structure EncoderBehavior where
  loadOk : Bool
  writeOk : ℕ → Bool
  writeErrMsg : String
  loadErrMsg : String
  execExit : ℤ

/-- Externally visible actions performed by `startExport`, in order. -/
inductive ExportEvent where
  | loadEncoder
  | initSession
  | renderAt (time : ℚ)
  | writeFrame (name : String)
  | cleanupSession
  | execEncode
  | readOutput
  | download
  | deleteTemp (name : String)
  | terminateWorker
deriving DecidableEq

/-- Model of `String(i).padStart(n, c)`. -/
def padStart (s : String) (n : ℕ) (c : Char) : String :=
  if s.length ≥ n then s else String.mk (List.replicate (n - s.length) c) ++ s

/-- Frame file name `frame_` + the index padded to five digits + `.png`. -/
def frameName (i : ℕ) : String :=
  "frame_" ++ padStart (toString i) 5 '0' ++ ".png"

/-- The render/write loop of `startExport`: frame `i` is rendered at
`(i / fps) * 1000` ms and its write awaited before the next iteration; a
rejected write aborts the loop with the rejection's message. -/
def writeLoop (beh : EncoderBehavior) (fps : ℚ) :
    ℕ → ℕ → List ExportEvent × Except String Unit
  | _i, 0 => ([], .ok ())
  | i, n + 1 =>
    let evs : List ExportEvent := [.renderAt ((i : ℚ) / fps * 1000), .writeFrame (frameName i)]
    if beh.writeOk i then
      let rest := writeLoop beh fps (i + 1) n
      (evs ++ rest.1, rest.2)
    else
      (evs, .error beh.writeErrMsg)

/-- The `try` block of `startExport`: load, init the export session, render
and submit `fps * duration` frames, cleanup the session, run the encoder,
then (on success only) read, download, delete the temporary frame files and
the output, and terminate the worker. Returns the events, the outcome, and
whether the export session (`renderer._export`) is still live. -/
def exportBody (beh : EncoderBehavior) (fps dur : ℕ) :
    List ExportEvent × Except String Unit × Bool :=
  let total := fps * dur
  if beh.loadOk then
    let fr := writeLoop beh (fps : ℚ) 0 total
    match fr.2 with
    | .error m => ([.loadEncoder, .initSession] ++ fr.1, .error m, true)
    | .ok _ =>
      if beh.execExit ≠ 0 then
        ([.loadEncoder, .initSession] ++ fr.1 ++ [.cleanupSession, .execEncode],
         .error ("ffmpeg exited with code " ++ toString beh.execExit), false)
      else
        ([.loadEncoder, .initSession] ++ fr.1 ++
           [.cleanupSession, .execEncode, .readOutput, .download] ++
           (List.range total).map (fun i => .deleteTemp (frameName i)) ++
           [.deleteTemp "output.mp4", .terminateWorker],
         .ok (), false)
  else ([.loadEncoder], .error beh.loadErrMsg, false)

/-- The coordinator's UI-visible state: the module-level `isExporting` flag,
the export button, the progress label, and whether an export session is
allocated. -/
structure ExportState where
  isExporting : Bool
  btnDisabled : Bool
  btnText : String
  progressText : String
  sessionActive : Bool
deriving DecidableEq

def initialExportState : ExportState :=
  { isExporting := false, btnDisabled := false, btnText := "Export Video",
    progressText := "", sessionActive := false }

/-- Model of `startExport()`: a re-entrant call while `isExporting` is set returns at
once; otherwise the body runs, every thrown error is caught and shown as
`Export failed: <message>`, and the `finally` block restores the flag and
the button. -/
def startExport (st : ExportState) (beh : EncoderBehavior) (fps dur : ℕ) :
    ExportState × List ExportEvent :=
  if st.isExporting then (st, [])
  else
    let body := exportBody beh fps dur
    let finalText :=
      match body.2.1 with
      | .ok _ => "Export complete!"
      | .error m => "Export failed: " ++ m
    ({ isExporting := false, btnDisabled := false, btnText := "Export Video",
       progressText := finalText, sessionActive := body.2.2 }, body.1)

-- ── CSS hex colors (for the gradient-stop claims) ──

/-- Value of one hex digit. -/
def hexVal (c : Char) : Option ℕ :=
  if '0' ≤ c ∧ c ≤ '9' then some (c.toNat - '0'.toNat)
  else if 'a' ≤ c ∧ c ≤ 'f' then some (c.toNat - 'a'.toNat + 10)
  else if 'A' ≤ c ∧ c ≤ 'F' then some (c.toNat - 'A'.toNat + 10)
  else none

/-- Value of a two-digit hex byte. -/
def hexByte (hi lo : Char) : Option ℕ :=
  match hexVal hi, hexVal lo with
  | some h, some l => some (16 * h + l)
  | _, _ => none

/-- Modelled from the spec: the renderer hands the canvas CSS color strings;
a `#rrggbb` color denotes an opaque color and a `#rrggbbaa` color carries an
alpha component of `aa / 255` (CSS 8-digit hex notation). This decoder is the
spec-level meaning of the color strings built by `drawCircle` and friends. -/
def parseHexColor (s : String) : Option (ℕ × ℕ × ℕ × ℚ) :=
  match s.data with
  | ['#', r1, r2, g1, g2, b1, b2] =>
    match hexByte r1 r2, hexByte g1 g2, hexByte b1 b2 with
    | some r, some g, some b => some (r, g, b, 1)
    | _, _, _ => none
  | ['#', r1, r2, g1, g2, b1, b2, a1, a2] =>
    match hexByte r1 r2, hexByte g1 g2, hexByte b1 b2, hexByte a1 a2 with
    | some r, some g, some b, some a => some (r, g, b, (a : ℚ) / 255)
    | _, _, _, _ => none
  | _ => none

-- ── Helper lemmas ──

lemma jsMod1_of_Ico {x : ℝ} (h0 : 0 ≤ x) (h1 : x < 1) : jsMod1 x = x := by
  rw [jsMod1, if_pos h0, Int.fract_eq_self.mpr ⟨h0, h1⟩]

lemma jsMod1_of_neg_Ioo {x : ℝ} (h0 : -1 < x) (h1 : x < 0) : jsMod1 x = x := by
  rw [jsMod1, if_neg (by linarith), Int.fract_eq_self.mpr ⟨by linarith, by linarith⟩]
  ring

lemma jsMod1_one : jsMod1 (1 : ℝ) = 0 := by
  rw [jsMod1, if_pos (by norm_num), Int.fract_one]

lemma jsMod1_zero : jsMod1 (0 : ℝ) = 0 := by
  rw [jsMod1, if_pos le_rfl, Int.fract_zero]

-- ── Claim C6: unknown-kind fallbacks ──

/-- Claim C6: for every drawing surface position, radius, color, opacity and
layer index, an unrecognized shape kind produces exactly the drawing
operations of kind `circle`, and an unrecognized motion kind returns exactly
the offsets of kind `lissajous`. Both dispatchers are total functions of
their inputs, so neither case can raise an error. -/
theorem unknown_kind_fallback (shape motionKind : String) (cx cy blobRadius : ℝ)
    (color : String) (opacity : ℝ) (layerIndex : ℕ) (t : ℝ) (orbit : Orbit) (range : ℝ)
    (hs : shape ∉ ["circle", "ellipse", "ring", "blob"])
    (hm : motionKind ∉ ["lissajous", "orbit", "drift", "breathe", "wave"]) :
    drawShape shape cx cy blobRadius color opacity layerIndex =
      drawShape "circle" cx cy blobRadius color opacity layerIndex ∧
    getMotionOffset motionKind t orbit range =
      getMotionOffset "lissajous" t orbit range := by
  simp only [List.mem_cons, List.not_mem_nil, or_false, not_or] at hs hm
  obtain ⟨-, hs2, hs3, hs4⟩ := hs
  obtain ⟨-, hm2, hm3, hm4, hm5⟩ := hm
  refine ⟨?_, ?_⟩
  · simp [drawShape, hs2, hs3, hs4]
  · simp [getMotionOffset, hm2, hm3, hm4, hm5]

/-- Concrete instance of `unknown_kind_fallback` at the kinds `"wobble"` and
`"zigzag"`. -/
theorem unknown_kind_fallback_witness :
    ("wobble" ∉ ["circle", "ellipse", "ring", "blob"] ∧
     "zigzag" ∉ ["lissajous", "orbit", "drift", "breathe", "wave"]) ∧
    (drawShape "wobble" 10 20 30 "#123456" 1 2 =
       drawShape "circle" 10 20 30 "#123456" 1 2 ∧
     getMotionOffset "zigzag" 3 ⟨0.1, 0.2, 1, -1⟩ 5 =
       getMotionOffset "lissajous" 3 ⟨0.1, 0.2, 1, -1⟩ 5) :=
  ⟨⟨by decide, by decide⟩,
   unknown_kind_fallback "wobble" "zigzag" 10 20 30 "#123456" 1 2 3 ⟨0.1, 0.2, 1, -1⟩ 5
     (by decide) (by decide)⟩

-- ── Claim C2: motion periodicity ──

/-- Claim C2 is refuted by the code: the `drift` motion is not periodic with
period 1 in phase. At kind `"drift"`, orbit `(phaseX, phaseY, dirX, dirY) =
(0.5, 0, -1, 1)` (phases in `[0,1)`, directions in `{-1,+1}`), range `1`,
the x-offset at phase `0` is `0` but at phase `1` it is `-2`: JavaScript `%`
is a truncating remainder, so once `t * dirX + phaseX` turns negative the
wrapped value jumps from `[0,1)` to `(-1,0)`. -/
theorem drift_not_periodic :
    getMotionOffset "drift" 0 ⟨0.5, 0, -1, 1⟩ 1 ≠
      getMotionOffset "drift" 1 ⟨0.5, 0, -1, 1⟩ 1 := by
  have e0 : jsMod1 ((0 : ℝ) * (-1) + 0.5) = 0.5 := by
    rw [show ((0 : ℝ) * (-1) + 0.5) = 0.5 by norm_num]
    exact jsMod1_of_Ico (by norm_num) (by norm_num)
  have e1 : jsMod1 ((1 : ℝ) * (-1) + 0.5) = -0.5 := by
    rw [show ((1 : ℝ) * (-1) + 0.5) = -0.5 by norm_num]
    exact jsMod1_of_neg_Ioo (by norm_num) (by norm_num)
  show motionDrift 0 ⟨0.5, 0, -1, 1⟩ 1 ≠ motionDrift 1 ⟨0.5, 0, -1, 1⟩ 1
  intro h
  simp only [motionDrift, Prod.mk.injEq] at h
  rw [e0, e1] at h
  norm_num at h

-- ── Claim C10: loopDuration = 0 fallback ──

/-- Claim C10: rendering with a falsy `loopDuration` (zero) divides by the
substituted loop duration 10000 ms instead, so the frame is identical to the
one rendered with `loopDuration = 10000`; in particular no division by zero
occurs. -/
theorem loopDuration_zero_fallback (s : Settings) (time w h : ℝ)
    (hs : s.loopDuration = 0) :
    renderFrame time s w h = renderFrame time { s with loopDuration := 10000 } w h := by
  have hl : layerOps time s w h = layerOps time { s with loopDuration := 10000 } w h := by
    funext i
    simp only [layerOps, jsOrNum, hs]
    norm_num
  simp only [renderFrame, hl]

/-- A settings snapshot with `loopDuration = 0`, used to instantiate the
fallback theorem. -/
noncomputable def settingsZeroLoop : Settings :=
  { bgColor := "#050814"
    layerCount := 4
    layerColors := fun _ => some "#7c7cff"
    layerShapes := fun _ => some "circle"
    layerMotions := fun _ => some "lissajous"
    layerCycles := fun _ => some 1
    layerMotionRanges := fun _ => some 250
    layerOpacities := fun _ => some 0.75
    layerScaleRanges := fun _ => some 1.4
    blur := 160
    blendMode := "screen"
    loopDuration := 0 }

/-- Concrete instance of `loopDuration_zero_fallback`. -/
theorem loopDuration_zero_fallback_witness :
    settingsZeroLoop.loopDuration = 0 ∧
    renderFrame 4321 settingsZeroLoop 1920 1080 =
      renderFrame 4321 { settingsZeroLoop with loopDuration := 10000 } 1920 1080 :=
  ⟨rfl, loopDuration_zero_fallback settingsZeroLoop 4321 1920 1080 rfl⟩

-- ── Claim C3: renderFrame determinism ──

/-- Claim C3: `renderFrame` is a pure function of time, the settings
snapshot, and the surface dimensions. With the renderer's mutable state
threaded explicitly, a run leaves the state untouched, and a second run from
the resulting state at the same inputs emits the identical operation list.
(The blob outlines and orbit tables it reads are compiled-in constants, so no
hidden mutable state exists in the embedding, mirroring the source, whose
`renderFrame` writes neither `this.settings` nor any module variable.) -/
theorem renderFrame_deterministic (st : Settings) (time w h : ℝ) :
    (renderFrameRun st time w h).2 = st ∧
    (renderFrameRun ((renderFrameRun st time w h).2) time w h).1 =
      (renderFrameRun st time w h).1 :=
  ⟨rfl, rfl⟩

-- ── Claim C4: export frame sequence ──

/-- Names of the frames submitted to the encoder, in submission order. -/
def writesOf (evs : List ExportEvent) : List String :=
  evs.filterMap fun e =>
    match e with
    | .writeFrame n => some n
    | _ => none

lemma writesOf_append (a b : List ExportEvent) :
    writesOf (a ++ b) = writesOf a ++ writesOf b := by
  simp [writesOf]

lemma writeLoop_ok (beh : EncoderBehavior) (fps : ℚ)
    (hw : ∀ i, beh.writeOk i = true) :
    ∀ n i, writeLoop beh fps i n =
      ((List.range' i n).flatMap fun k =>
        [ExportEvent.renderAt (1000 * (k : ℚ) / fps),
         ExportEvent.writeFrame (frameName k)],
       Except.ok ()) := by
  intro n
  induction n with
  | zero => intro i; simp [writeLoop]
  | succ m ih =>
    intro i
    have ht : ((i : ℚ) / fps * 1000) = 1000 * (i : ℚ) / fps := by ring
    simp only [writeLoop, hw i, if_true, ih (i + 1), List.range'_succ,
      List.flatMap_cons, ht]

lemma writesOf_pairs (fps : ℚ) (l : List ℕ) :
    writesOf (l.flatMap fun k =>
      [ExportEvent.renderAt (1000 * (k : ℚ) / fps),
       ExportEvent.writeFrame (frameName k)]) = l.map frameName := by
  induction l with
  | nil => rfl
  | cons a t ih => simp [writesOf, List.flatMap_cons] at ih ⊢; exact ih

lemma writesOf_deletes (l : List ℕ) :
    writesOf (l.map fun k => ExportEvent.deleteTemp (frameName k)) = [] := by
  induction l with
  | nil => rfl
  | cons a t ih => simp [writesOf] at ih ⊢

/-- Claim C4: when every frame write is acknowledged and the encoder exits
with code 0, the coordinator performs, in order: load, session init, then for
each `k < fps * duration` — in strictly increasing `k` — a render of frame
`k` at time `1000 * k / fps` milliseconds immediately followed by the awaited
submission of `frame_<k padded to 5>.png` (so frame `k` is fully submitted
before frame `k + 1` is rendered), then cleanup, encode, read, download,
temp-file deletion and worker termination. In particular the submitted frame
names are exactly `(List.range (fps * dur)).map frameName`: exactly
`fps * duration` frames, in increasing frame-index order. -/
theorem export_frame_sequence (beh : EncoderBehavior) (fps dur : ℕ)
    (hl : beh.loadOk = true) (hw : ∀ i, beh.writeOk i = true)
    (he : beh.execExit = 0) :
    exportBody beh fps dur =
      ([ExportEvent.loadEncoder, ExportEvent.initSession] ++
        ((List.range (fps * dur)).flatMap fun k =>
          [ExportEvent.renderAt (1000 * (k : ℚ) / (fps : ℚ)),
           ExportEvent.writeFrame (frameName k)]) ++
        [ExportEvent.cleanupSession, ExportEvent.execEncode,
         ExportEvent.readOutput, ExportEvent.download] ++
        (List.range (fps * dur)).map (fun k => ExportEvent.deleteTemp (frameName k)) ++
        [ExportEvent.deleteTemp "output.mp4", ExportEvent.terminateWorker],
       Except.ok (), false) ∧
    writesOf (exportBody beh fps dur).1 = (List.range (fps * dur)).map frameName := by
  have hbody : exportBody beh fps dur =
      ([ExportEvent.loadEncoder, ExportEvent.initSession] ++
        ((List.range (fps * dur)).flatMap fun k =>
          [ExportEvent.renderAt (1000 * (k : ℚ) / (fps : ℚ)),
           ExportEvent.writeFrame (frameName k)]) ++
        [ExportEvent.cleanupSession, ExportEvent.execEncode,
         ExportEvent.readOutput, ExportEvent.download] ++
        (List.range (fps * dur)).map (fun k => ExportEvent.deleteTemp (frameName k)) ++
        [ExportEvent.deleteTemp "output.mp4", ExportEvent.terminateWorker],
       Except.ok (), false) := by
    simp [exportBody, hl, he, writeLoop_ok beh (fps : ℚ) hw, List.range_eq_range']
  refine ⟨hbody, ?_⟩
  rw [hbody]
  simp only [writesOf_append, writesOf_pairs ((fps : ℕ) : ℚ), writesOf_deletes]
  simp [writesOf]

/-- An encoder that acknowledges everything and exits with code 0. -/
def behOk : EncoderBehavior :=
  { loadOk := true, writeOk := fun _ => true, writeErrMsg := "write failed",
    loadErrMsg := "load failed", execExit := 0 }

/-- Concrete instance of `export_frame_sequence` at `fps = 2`, `duration = 1`. -/
theorem export_frame_sequence_witness :
    (behOk.loadOk = true ∧ (∀ i, behOk.writeOk i = true) ∧ behOk.execExit = 0) ∧
    (exportBody behOk 2 1 =
      ([ExportEvent.loadEncoder, ExportEvent.initSession] ++
        ((List.range (2 * 1)).flatMap fun k =>
          [ExportEvent.renderAt (1000 * (k : ℚ) / ((2 : ℕ) : ℚ)),
           ExportEvent.writeFrame (frameName k)]) ++
        [ExportEvent.cleanupSession, ExportEvent.execEncode,
         ExportEvent.readOutput, ExportEvent.download] ++
        (List.range (2 * 1)).map (fun k => ExportEvent.deleteTemp (frameName k)) ++
        [ExportEvent.deleteTemp "output.mp4", ExportEvent.terminateWorker],
       Except.ok (), false) ∧
     writesOf (exportBody behOk 2 1).1 = (List.range (2 * 1)).map frameName) :=
  ⟨⟨rfl, fun _ => rfl, rfl⟩,
   export_frame_sequence behOk 2 1 rfl (fun _ => rfl) rfl⟩

-- ── Claim C5: encoder failure handling ──

/-- An encoder that acknowledges every write but exits with code 1. -/
def behExitOne : EncoderBehavior :=
  { loadOk := true, writeOk := fun _ => true, writeErrMsg := "write failed",
    loadErrMsg := "load failed", execExit := 1 }

/-- Claim C5 is refuted on its cleanup part: when the encoder exits with
code 1 during an export of one frame, the coordinator never terminates the
worker and never deletes any temporary frame file — the deletion loop and
`terminate()` sit after the `throw` inside the `try` block, and the `catch`
and `finally` blocks only update the UI state. (The error itself is
surfaced: the final progress text carries the failure code.) -/
theorem export_failure_skips_cleanup :
    (ExportEvent.terminateWorker ∉ (startExport initialExportState behExitOne 1 1).2 ∧
     ∀ n, ExportEvent.deleteTemp n ∉ (startExport initialExportState behExitOne 1 1).2) ∧
    (startExport initialExportState behExitOne 1 1).1.progressText =
      "Export failed: ffmpeg exited with code 1" := by
  refine ⟨⟨?_, ?_⟩, ?_⟩
  · simp [startExport, exportBody, writeLoop, behExitOne, initialExportState]
  · intro n
    simp [startExport, exportBody, writeLoop, behExitOne, initialExportState]
  · rfl

/-- Claim C5 as amended: on a non-zero encoder exit code the coordinator
aborts the remaining sequence (no read, no download), surfaces through its
progress label a descriptive message carrying the failure code, lets no
exception escape its boundary (the model's `startExport` is a total function
whose `catch` turns the thrown error into that label), and resets its
in-flight flag — but it does **not** delete the per-frame temporary files and
does **not** terminate the worker: that cleanup only runs on success. -/
theorem export_failure_handling (st : ExportState) (beh : EncoderBehavior) (fps dur : ℕ)
    (hst : st.isExporting = false) (hl : beh.loadOk = true)
    (hw : ∀ i, beh.writeOk i = true) (he : beh.execExit ≠ 0) :
    (startExport st beh fps dur).1.progressText =
      "Export failed: ffmpeg exited with code " ++ toString beh.execExit ∧
    (startExport st beh fps dur).1.isExporting = false ∧
    ExportEvent.readOutput ∉ (startExport st beh fps dur).2 ∧
    ExportEvent.download ∉ (startExport st beh fps dur).2 ∧
    ExportEvent.terminateWorker ∉ (startExport st beh fps dur).2 ∧
    ∀ n, ExportEvent.deleteTemp n ∉ (startExport st beh fps dur).2 := by
  have hrun : startExport st beh fps dur =
      ({ isExporting := false, btnDisabled := false, btnText := "Export Video",
         progressText := "Export failed: " ++
           ("ffmpeg exited with code " ++ toString beh.execExit),
         sessionActive := false },
       [ExportEvent.loadEncoder, ExportEvent.initSession] ++
        ((List.range' 0 (fps * dur)).flatMap fun k =>
          [ExportEvent.renderAt (1000 * (k : ℚ) / (fps : ℚ)),
           ExportEvent.writeFrame (frameName k)]) ++
        [ExportEvent.cleanupSession, ExportEvent.execEncode]) := by
    simp [startExport, hst, exportBody, hl, he, writeLoop_ok beh (fps : ℚ) hw]
  rw [hrun]
  refine ⟨?_, rfl, ?_, ?_, ?_, ?_⟩
  · rw [← String.append_assoc]; rfl
  · simp
  · simp
  · simp
  · intro n; simp

/-- Concrete instance of `export_failure_handling` with exit code 1. -/
theorem export_failure_handling_witness :
    (initialExportState.isExporting = false ∧ behExitOne.loadOk = true ∧
     (∀ i, behExitOne.writeOk i = true) ∧ behExitOne.execExit ≠ 0) ∧
    ((startExport initialExportState behExitOne 3 2).1.progressText =
       "Export failed: ffmpeg exited with code " ++ toString behExitOne.execExit ∧
     (startExport initialExportState behExitOne 3 2).1.isExporting = false ∧
     ExportEvent.readOutput ∉ (startExport initialExportState behExitOne 3 2).2 ∧
     ExportEvent.download ∉ (startExport initialExportState behExitOne 3 2).2 ∧
     ExportEvent.terminateWorker ∉ (startExport initialExportState behExitOne 3 2).2 ∧
     ∀ n, ExportEvent.deleteTemp n ∉ (startExport initialExportState behExitOne 3 2).2) :=
  ⟨⟨rfl, rfl, fun _ => rfl, by decide⟩,
   export_failure_handling initialExportState behExitOne 3 2 rfl rfl
     (fun _ => rfl) (by decide)⟩

-- ── Claim C9: re-entrant start rejected ──

/-- Claim C9: while an export is in flight (`isExporting = true`), a second
`startExport` call returns immediately: it emits no events — no frame render,
no encoder load — and leaves the whole coordinator state (session, progress
label, button) unchanged, so at most one export is ever active. -/
theorem reentrant_start_ignored (st : ExportState) (beh : EncoderBehavior)
    (fps dur : ℕ) (h : st.isExporting = true) :
    startExport st beh fps dur = (st, []) := by
  simp [startExport, h]

/-- Concrete instance of `reentrant_start_ignored` on a busy coordinator. -/
theorem reentrant_start_ignored_witness :
    ({ initialExportState with isExporting := true }.isExporting = true) ∧
    startExport { initialExportState with isExporting := true } behExitOne 30 5 =
      ({ initialExportState with isExporting := true }, []) :=
  ⟨rfl, reentrant_start_ignored { initialExportState with isExporting := true }
    behExitOne 30 5 rfl⟩

-- ── Claim C7: blob outline generator ──

lemma rngStep_lt (s : ℕ) : rngStep s < 2147483647 :=
  Nat.mod_lt _ (by norm_num)

lemma floatRound_of_lt {x : ℕ} (h : x < 2 ^ 53) : floatRound x = x := by
  rw [floatRound, if_pos h]

/-- Below `2 ^ 53` the double product is exact and the step is the pure
`(s * 16807) % 2147483647`. -/
lemma rngStep_exact {s : ℕ} (hx : s * 16807 < 2 ^ 53) :
    rngStep s = s * 16807 % 2147483647 := by
  rw [rngStep, floatRound_of_lt hx]

lemma rngStep_not_dvd {s : ℕ} (hx : s * 16807 < 2 ^ 53) (h : ¬ 2147483647 ∣ s) :
    ¬ 2147483647 ∣ rngStep s := by
  rw [rngStep_exact hx, Nat.dvd_mod_iff dvd_rfl]
  intro hd
  exact h (Nat.Coprime.dvd_of_dvd_mul_right (by norm_num) hd)

/-- Every state below the modulus multiplies without rounding: the largest
possible product is `2147483646 * 16807 < 2 ^ 53`. -/
lemma state_mul_small {s : ℕ} (h : s < 2147483647) : s * 16807 < 2 ^ 53 := by
  calc s * 16807 ≤ 2147483646 * 16807 :=
        Nat.mul_le_mul_right _ (by omega)
    _ < 2 ^ 53 := by norm_num

lemma rngIter_not_dvd {s : ℕ} (hx : s * 16807 < 2 ^ 53) (h : ¬ 2147483647 ∣ s)
    (k : ℕ) : ¬ 2147483647 ∣ rngStep^[k] s := by
  induction k with
  | zero => exact h
  | succ m ih =>
    rw [Function.iterate_succ_apply']
    refine rngStep_not_dvd ?_ ih
    cases m with
    | zero => simpa using hx
    | succ l =>
      refine state_mul_small ?_
      rw [Function.iterate_succ_apply']
      exact rngStep_lt _

lemma rngVal_nonneg {s : ℕ} (h1 : 1 ≤ s) : 0 ≤ rngVal s := by
  rw [rngVal]
  apply div_nonneg _ (by norm_num)
  have : (1 : ℚ) ≤ (s : ℚ) := by exact_mod_cast h1
  linarith

lemma rngVal_lt_one {s : ℕ} (h : s < 2147483647) : rngVal s < 1 := by
  rw [rngVal, div_lt_one (by norm_num)]
  have : (s : ℚ) < 2147483647 := by exact_mod_cast h
  linarith

/-- Every RNG draw (post-step state) lies in `[0, 1)` as long as the seed
multiplies exactly and is not a multiple of the modulus. -/
lemma rngIterVal_bounds {s : ℕ} (hx : s * 16807 < 2 ^ 53) (h : ¬ 2147483647 ∣ s)
    (k : ℕ) :
    0 ≤ rngVal (rngStep^[k + 1] s) ∧ rngVal (rngStep^[k + 1] s) < 1 := by
  have hnd := rngIter_not_dvd hx h (k + 1)
  have hpos : 1 ≤ rngStep^[k + 1] s := by
    rcases Nat.eq_zero_or_pos (rngStep^[k + 1] s) with h0 | h1
    · exact absurd (h0 ▸ dvd_zero 2147483647) hnd
    · exact h1
  have hlt : rngStep^[k + 1] s < 2147483647 := by
    rw [Function.iterate_succ_apply']
    exact rngStep_lt _
  exact ⟨rngVal_nonneg hpos, rngVal_lt_one hlt⟩

set_option maxRecDepth 4096 in
/-- In the float-exact seeding regime, no seed of the form `7919 * i + 1301`
is a multiple of 2147483647: a multiple `2147483647 * j` with exact product
forces `j ≤ 249`, and none of those 250 multiples is `1301 mod 7919`. -/
lemma seed_not_dvd {i : ℕ} (hx : blobSeed i * 16807 < 2 ^ 53) :
    ¬ 2147483647 ∣ blobSeed i := by
  rintro ⟨j, hj⟩
  have hj249 : j ≤ 249 := by
    by_contra hc
    push_neg at hc
    have h250 : 2147483647 * 250 ≤ blobSeed i := by
      rw [hj]
      exact Nat.mul_le_mul_left _ hc
    have : 2147483647 * 250 * 16807 ≤ blobSeed i * 16807 :=
      Nat.mul_le_mul_right _ h250
    norm_num at this
    omega
  have hmod : blobSeed i % 7919 = 1301 := by
    rw [blobSeed]
    omega
  rw [hj] at hmod
  have hforall : ∀ j' < 250, (2147483647 * j') % 7919 ≠ 1301 := by decide
  exact hforall j (by omega) hmod

lemma blobPointCount_bounds (i : ℕ) (hx : blobSeed i * 16807 < 2 ^ 53)
    (h : ¬ 2147483647 ∣ blobSeed i) :
    5 ≤ blobPointCount i ∧ blobPointCount i ≤ 8 := by
  have hb := rngIterVal_bounds hx h 0
  rw [zero_add, Function.iterate_one] at hb
  have hf0 : 0 ≤ ⌊rngVal (rngStep (blobSeed i)) * 4⌋ :=
    Int.floor_nonneg.mpr (mul_nonneg hb.1 (by norm_num))
  have hf3 : ⌊rngVal (rngStep (blobSeed i)) * 4⌋ < 4 :=
    Int.floor_lt.mpr (by push_cast; nlinarith [hb.2])
  rw [blobPointCount]
  omega

lemma buildRandomBlobPoints_length (i : ℕ) :
    (buildRandomBlobPoints i).length = blobPointCount i := by
  simp [buildRandomBlobPoints]

/-- Claim C7 as amended: for every layer index in the float-exact seeding
regime — `(7919 * i + 1301) * 16807 < 2 ^ 53`, i.e. `i ≤ 67675148`, which
covers the six precomputed slots 0–5 — the generator is a pure function of
the index (re-invocation trivially reproduces the identical point sequence,
as the generator reseeds from the index alone and shares no state), the
outline has between 5 and 8 points, and every radius fraction lies in
`[0.6, 1]` (in fact in `[0.6, 1)`). In this regime no seed is a multiple of
the LCG modulus (`seed_not_dvd`), so the bounds hold unconditionally.
Outside it the first product is a rounded double, and the rounding can land
on a multiple of the modulus, collapsing the generator (see the degenerate
counterexample). Determinism itself holds for every index. -/
theorem blob_outline_spec (i : ℕ) (hexact : blobSeed i * 16807 < 2 ^ 53) :
    buildRandomBlobPoints i = buildRandomBlobPoints i ∧
    (5 ≤ (buildRandomBlobPoints i).length ∧ (buildRandomBlobPoints i).length ≤ 8) ∧
    ∀ pt ∈ buildRandomBlobPoints i, (0.6 : ℚ) ≤ pt.radius ∧ pt.radius ≤ 1 := by
  have h := seed_not_dvd hexact
  refine ⟨rfl, ?_, ?_⟩
  · rw [buildRandomBlobPoints_length]
    exact blobPointCount_bounds i hexact h
  · intro pt hpt
    rw [buildRandomBlobPoints, List.mem_map] at hpt
    obtain ⟨j, hj, rfl⟩ := hpt
    have hb := rngIterVal_bounds hexact h (j + 1)
    constructor
    · simp only
      nlinarith [hb.1]
    · simp only
      nlinarith [hb.2]

/-- Claim C7 is refuted at layer index 970566474: the seed is
7685915908907, the exact product `seed * 16807 = 129177188680999949` has 57
bits, and the IEEE double rounds it up by 3 to 129177188680999952 — a
multiple of 2147483647. The LCG therefore collapses to state 0, the first
draw is `-1 / 2147483646`, `Math.floor` of its quadruple is `-1`, and the
generated outline has only 4 points — outside the claimed 5–8 range (its
radii also fall just below 0.6). -/
theorem blob_outline_degenerate : (buildRandomBlobPoints 970566474).length = 4 := by
  have h1 : rngStep (blobSeed 970566474) = 0 := by
    have hseed : blobSeed 970566474 = 7685915908907 := by norm_num [blobSeed]
    rw [hseed, rngStep]
    norm_num [floatRound, roundPrec]
  have h2 : blobPointCount 970566474 = 4 := by
    rw [blobPointCount, h1]
    have h3 : ⌊rngVal 0 * 4⌋ = -1 := by
      rw [Int.floor_eq_iff]
      norm_num [rngVal]
    rw [h3]
    decide
  rw [buildRandomBlobPoints_length, h2]

/-- Concrete instance of `blob_outline_spec` at layer index 0. -/
theorem blob_outline_spec_witness :
    blobSeed 0 * 16807 < 2 ^ 53 ∧
    (buildRandomBlobPoints 0 = buildRandomBlobPoints 0 ∧
     (5 ≤ (buildRandomBlobPoints 0).length ∧ (buildRandomBlobPoints 0).length ≤ 8) ∧
     ∀ pt ∈ buildRandomBlobPoints 0, (0.6 : ℚ) ≤ pt.radius ∧ pt.radius ≤ 1) :=
  ⟨by norm_num [blobSeed], blob_outline_spec 0 (by norm_num [blobSeed])⟩

-- ── Claim C8: circle gradient ──

/-- Claim C8 as amended: `drawCircle` fills the square bounding the circle
(corner `(cx - r, cy - r)`, side `2r`) with a radial gradient running from
the given color at the center through a variant of the same color at 55% of
the radius to full transparency at the outer edge — but the middle stop's
variant carries the hex alpha byte `40`, i.e. alpha `64/255 ≈ 25.1%`, not a
40% alpha. For any base color `#c1c2c3c4c5c6` the middle stop `color ++ "40"`
decodes to the same RGB with alpha `64/255`. -/
theorem circle_gradient_spec (cx cy blobRadius : ℝ) (c : String) (opacity : ℝ)
    (c1 c2 c3 c4 c5 c6 : Char) (v1 v2 v3 v4 v5 v6 : ℕ)
    (hc : c.data = ['#', c1, c2, c3, c4, c5, c6])
    (h1 : hexVal c1 = some v1) (h2 : hexVal c2 = some v2)
    (h3 : hexVal c3 = some v3) (h4 : hexVal c4 = some v4)
    (h5 : hexVal c5 = some v5) (h6 : hexVal c6 = some v6) :
    drawCircle cx cy blobRadius c opacity =
      [.save, .setAlpha opacity,
       .setFillGradient ⟨cx, cy, 0, cx, cy, blobRadius,
         [(0, c), (0.55, c ++ "40"), (1, "transparent")]⟩,
       .fillRect (cx - blobRadius) (cy - blobRadius) (blobRadius * 2) (blobRadius * 2),
       .restore] ∧
    parseHexColor c = some (16 * v1 + v2, 16 * v3 + v4, 16 * v5 + v6, 1) ∧
    parseHexColor (c ++ "40") =
      some (16 * v1 + v2, 16 * v3 + v4, 16 * v5 + v6, 64 / 255) := by
  refine ⟨rfl, ?_, ?_⟩
  · rw [parseHexColor, hc]
    simp [hexByte, h1, h2, h3, h4, h5, h6]
  · have hd : (c ++ "40").data = ['#', c1, c2, c3, c4, c5, c6, '4', '0'] := by
      rw [String.data_append, hc]
      rfl
    have h7 : hexVal '4' = some 4 := by decide
    have h8 : hexVal '0' = some 0 := by decide
    rw [parseHexColor, hd]
    simp [hexByte, h1, h2, h3, h4, h5, h6, h7, h8]

/-- Claim C8 is refuted on its "40%-alpha" wording: the middle stop built by
`drawCircle` for color `#7c7cff` is `#7c7cff40`; appending the hex byte `40`
yields alpha `0x40 / 255 = 64 / 255 ≈ 25.1%`, which is not 40%. -/
theorem circle_gradient_alpha_not_forty_pct :
    drawCircle 0 0 1 "#7c7cff" 1 =
      [.save, .setAlpha 1,
       .setFillGradient ⟨0, 0, 0, 0, 0, 1,
         [(0, "#7c7cff"), (0.55, "#7c7cff40"), (1, "transparent")]⟩,
       .fillRect (0 - 1) (0 - 1) (1 * 2) (1 * 2),
       .restore] ∧
    parseHexColor "#7c7cff40" = some (124, 124, 255, 64 / 255) ∧
    (64 : ℚ) / 255 ≠ 40 / 100 := by
  refine ⟨rfl, ?_, by norm_num⟩
  have hd : "#7c7cff40".data = ['#', '7', 'c', '7', 'c', 'f', 'f', '4', '0'] := rfl
  rw [parseHexColor, hd]
  simp [hexByte, hexVal]

/-- Concrete instance of `circle_gradient_spec` at the default indigo color. -/
theorem circle_gradient_spec_witness :
    ("#7c7cff".data = ['#', '7', 'c', '7', 'c', 'f', 'f'] ∧
     hexVal '7' = some 7 ∧ hexVal 'c' = some 12 ∧ hexVal 'f' = some 15) ∧
    (drawCircle 3 4 5 "#7c7cff" 1 =
      [.save, .setAlpha 1,
       .setFillGradient ⟨3, 4, 0, 3, 4, 5,
         [(0, "#7c7cff"), (0.55, "#7c7cff" ++ "40"), (1, "transparent")]⟩,
       .fillRect (3 - 5) (4 - 5) (5 * 2) (5 * 2),
       .restore] ∧
     parseHexColor "#7c7cff" = some (16 * 7 + 12, 16 * 7 + 12, 16 * 15 + 15, 1) ∧
     parseHexColor ("#7c7cff" ++ "40") =
       some (16 * 7 + 12, 16 * 7 + 12, 16 * 15 + 15, 64 / 255)) :=
  ⟨⟨rfl, by decide, by decide, by decide⟩,
   circle_gradient_spec 3 4 5 "#7c7cff" 1 '7' 'c' '7' 'c' 'f' 'f' 7 12 7 12 15 15
     rfl (by decide) (by decide) (by decide) (by decide) (by decide) (by decide)⟩

-- ── Claim C1: loop identity ──

/-- Projection: the x-argument of a `fillRect`, 0 for every other op. -/
noncomputable def rectX : CanvasOp → ℝ
  | .fillRect x _ _ _ => x
  | _ => 0

/-- A settings snapshot within claim C1's domain: two layers, all cycle
counts the positive integer 1, `loopDuration = 10000 > 0`, drift motion. -/
noncomputable def settingsC1 : Settings :=
  { bgColor := "#050814"
    layerCount := 2
    layerColors := fun _ => some "#7c7cff"
    layerShapes := fun _ => some "circle"
    layerMotions := fun _ => some "drift"
    layerCycles := fun _ => some 1
    layerMotionRanges := fun _ => some 250
    layerOpacities := fun _ => some 0.75
    layerScaleRanges := fun _ => some 1
    blur := 160
    blendMode := "screen"
    loopDuration := 10000 }

theorem loop_identity_fails :
    renderFrame 0 settingsC1 1920 1080 ≠ renderFrame 10000 settingsC1 1920 1080 := by
  intro h
  have hsum := congrArg (fun l => (l.map rectX).sum) h
  have hr2 : List.range 2 = [0, 1] := rfl
  simp [renderFrame, layerOps, settingsC1, jsOrStr, jsOrNum, LAYER_ORBITS,
    DEFAULT_LAYER_COLORS, getMotionOffset, motionDrift, drawShape, drawCircle,
    rectX, hr2] at hsum
  have m1 : jsMod1 (0 : ℝ) = 0 := jsMod1_zero
  have m2 : jsMod1 (0.0 : ℝ) = 0 := by
    rw [show (0.0 : ℝ) = 0 by norm_num, jsMod1_zero]
  have m3 : jsMod1 (0.618 : ℝ) = 0.618 := jsMod1_of_Ico (by norm_num) (by norm_num)
  have m4 : jsMod1 (0.5 : ℝ) = 0.5 := jsMod1_of_Ico (by norm_num) (by norm_num)
  have m5 : jsMod1 ((1 : ℝ) + 0.0) = 0 := by
    rw [show ((1 : ℝ) + 0.0) = 1 by norm_num, jsMod1_one]
  have m6 : jsMod1 ((-1 : ℝ) + 0.5) = -0.5 := by
    rw [show ((-1 : ℝ) + 0.5) = -0.5 by norm_num]
    exact jsMod1_of_neg_Ioo (by norm_num) (by norm_num)
  have hmax : (1920 : ℝ) ⊔ 1080 = 1920 := sup_eq_left.mpr (by norm_num)
  simp only [m1, m2, m3, m4, m5, m6, hmax] at hsum
  norm_num at hsum
